import Mathlib

/-!
Shallow embedding of the Nimbus-DDNS sources: the Cloudflare API client
(getPublicIP, getZoneId, getRecordId, updateDNSRecord) and the ConfigManager
(loadConfig, saveConfig, get, set).  Network and file-system effects are made
explicit: each operation takes the outcome of its outbound calls as input and
returns the JS-level result (normal return or thrown error), together with the
requests it issued or the successor state where the source mutates state.
-/

namespace NimbusDDNS

/-- Thrown JS error values, as the source produces them: a plain Error with a
message, a runtime TypeError (property access on undefined), or a rejection
coming out of an axios request (network error or non-2xx status). -/
inductive JsErr where
  | error (msg : String)
  | typeError
  | axiosErr (info : String)
  deriving DecidableEq

/-- An axios response as the source consumes it for the IP services: the data
field is the response body; none models an undefined (or null) body. -/
structure AxiosResp where
  data : Option String
  deriving DecidableEq

/-- Outcome of one awaited axios request: fulfilled with a response, or
rejected with an error. -/
inductive HttpOutcome where
  | ok (r : AxiosResp)
  | reject (e : JsErr)
  deriving DecidableEq

/-- The two public-IP lookup services of getPublicIP, in the order the source
names them. -/
inductive Service where
  | primary
  | secondary
  deriving DecidableEq

/-- Embedding of the JS string method trim: whitespace is removed from both
ends of the string, computed over the character list. -/
def jsTrim (s : String) : String :=
  String.mk (List.reverse (List.dropWhile Char.isWhitespace
    (List.reverse (List.dropWhile Char.isWhitespace s.data))))

/-- Embedding of response.data.trim() at the end of getPublicIP: calling trim
on an undefined body throws a TypeError; otherwise the trimmed string is
returned. -/
def trimData (r : AxiosResp) : Except JsErr String :=
  match r.data with
  | none => .error .typeError
  | some s => .ok (jsTrim s)

/-- Embedding of getPublicIP: the primary request is awaited inside a try
block whose catch awaits the secondary request; the trim happens after the
try/catch on whichever response was obtained.  A rejection of the secondary
request is not caught and propagates as is. -/
def getPublicIP (primary secondary : HttpOutcome) : Except JsErr String :=
  match primary with
  | .ok r => trimData r
  | .reject _ =>
    match secondary with
    | .ok r => trimData r
    | .reject e => .error e

/-- The sequence of IP-service requests getPublicIP issues, in order: the
primary is always requested once, and the secondary exactly when the primary
request rejected. -/
def getPublicIPCalls (primary : HttpOutcome) : List Service :=
  match primary with
  | .ok _ => [.primary]
  | .reject _ => [.primary, .secondary]

/-- Modelled from the claim wording of C1: the primary call failing in any
way, namely by rejection (network error or non-2xx) or by a malformed
(undefined) response body on HTTP success.  Stated from the spec words, to be
compared against the embedded code. -/
def specAnyFailure : HttpOutcome → Prop
  | .reject _ => True
  | .ok r => r.data = none

/-- One zone object of the provider payload, as getZoneId consumes it: only
the id field is read. -/
structure Zone where
  id : String
  deriving DecidableEq

/-- The response.data payload of the zones query: the success flag and the
result list. -/
structure ZonesData where
  success : Bool
  result : List Zone
  deriving DecidableEq

/-- Embedding of getZoneId: on provider-reported failure a plain Error with
message "Failed to fetch Zone ID" is thrown; otherwise result[0].id is read
without a guard, so an empty result list makes the index yield undefined and
the id access throw a TypeError. -/
def getZoneId (d : ZonesData) : Except JsErr String :=
  if !d.success then .error (.error "Failed to fetch Zone ID")
  else
    match d.result.head? with
    | none => .error .typeError
    | some z => .ok z.id

/-- One DNS record object of the provider payload, as getRecordId consumes
it: only the id field is read. -/
structure DnsRecord where
  id : String
  deriving DecidableEq

/-- The response.data payload of the dns_records query. -/
structure RecordsData where
  success : Bool
  result : List DnsRecord
  deriving DecidableEq

/-- Embedding of the JS expression x || null on an optional string: undefined
and the falsy empty string both collapse to null. -/
def jsOrNull (x : Option String) : Option String :=
  match x with
  | none => none
  | some s => if s = "" then none else some s

/-- Embedding of getRecordId: on provider-reported failure a plain Error with
message "Failed to fetch Record ID" is thrown; otherwise the source returns
result[0]?.id || null, an optional-chained access followed by null-coercion
of a falsy id. -/
def getRecordId (d : RecordsData) : Except JsErr (Option String) :=
  if !d.success then .error (.error "Failed to fetch Record ID")
  else .ok (jsOrNull (d.result.head?.map DnsRecord.id))

/-- The JSON body of the PUT request updateDNSRecord issues. -/
structure RecordUpdateBody where
  type : String
  name : String
  content : String
  ttl : Nat
  proxied : Bool
  deriving DecidableEq

/-- One PUT request of updateDNSRecord: the provider path and the JSON
body. -/
structure PutRequest where
  url : String
  body : RecordUpdateBody
  deriving DecidableEq

/-- The response.data payload of the update call: the success flag plus the
rest of the raw provider payload, opaque here. -/
structure UpdateData where
  success : Bool
  payload : String
  deriving DecidableEq

/-- Embedding of updateDNSRecord: it issues exactly one PUT request whose
body is fixed by the arguments (type A, name subdomain.domainName, content
publicIP, ttl 1800, proxied false), throws a plain Error on
provider-reported failure, and otherwise returns response.data whole. -/
def updateDNSRecord (domainName zoneId recordId subdomain publicIP : String)
    (d : UpdateData) : List PutRequest × Except JsErr UpdateData :=
  let req : PutRequest :=
    { url := "/zones/" ++ zoneId ++ "/dns_records/" ++ recordId,
      body := { type := "A", name := subdomain ++ "." ++ domainName,
                content := publicIP, ttl := 1800, proxied := false } }
  ([req],
    if !d.success then .error (.error "Failed to update DNS record")
    else .ok d)

/-- A JSON document as ConfigManager holds it: a flat object, modelled as an
association list from string keys to values, in insertion order.  A wellformed
JS object has no duplicate keys; theorems that need this state it as a Nodup
hypothesis. -/
def Doc (V : Type) : Type := List (String × V)

/-- Embedding of the JS property read obj[q]: the value at the first
occurrence of the key, or undefined (none). -/
def lookupKey {V : Type} : List (String × V) → String → Option V
  | [], _ => none
  | (k, v) :: rest, q => if q = k then some v else lookupKey rest q

/-- Embedding of the JS property write obj[k] = v: the first entry carrying
the key is replaced in place, and a fresh key is appended at the end. -/
def setKey {V : Type} : List (String × V) → String → V → List (String × V)
  | [], k, v => [(k, v)]
  | (k', v') :: rest, k, v =>
    if k' = k then (k, v) :: rest else (k', v') :: setKey rest k v

/-- Embedding of the JS object spread expression with c spread first and p
spread second: each entry of p is assigned into a copy of c in order, so p
wins on every conflicting key. -/
def spreadMerge {V : Type} (c p : List (String × V)) : List (String × V) :=
  p.foldl (fun acc kv => setKey acc kv.1 kv.2) c

/-- First-wins choice on optional values, used to state lookup results of a
merged document. -/
def optOr {V : Type} : Option V → Option V → Option V
  | some v, _ => some v
  | none, o => o

/-- State of one ConfigManager instance together with the file system it
touches: the in-memory this.config document, the content of the file at
configPath (none when the file does not exist), and the content of the
sibling temporary file at configPath.tmp. -/
structure CMState (V : Type) where
  memory : List (String × V)
  disk : Option (List (String × V))
  temp : Option (List (String × V))
  deriving DecidableEq

/-- Outcome of the file-system steps of one saveConfig call: both steps
succeed, the write of the temporary file fails, or the write succeeds and the
rename fails. -/
inductive FsOutcome where
  | ok
  | writeFail (msg : String)
  | renameFail (msg : String)
  deriving DecidableEq

/-- Embedding of ConfigManager.loadConfig: if the file at configPath exists
its parsed document is returned, otherwise a plain Error whose message embeds
the configured path is thrown. -/
def loadConfig {V : Type} (configPath : String)
    (disk : Option (List (String × V))) : Except JsErr (List (String × V)) :=
  match disk with
  | some doc => .ok doc
  | none => .error (.error ("Config file not found (" ++ configPath ++ ")"))

/-- Embedding of the ConfigManager constructor: loadConfig runs immediately
and its document becomes the in-memory document; a missing file propagates
the loadConfig error. -/
def ConfigManager.construct {V : Type} (configPath : String)
    (disk : Option (List (String × V))) : Except JsErr (CMState V) :=
  match loadConfig configPath disk with
  | .error e => .error e
  | .ok doc => .ok { memory := doc, disk := disk, temp := none }

/-- Embedding of ConfigManager.saveConfig: the in-memory document is first
replaced by the spread merge of itself with newConfig; then the merged
document is written to the temporary path and renamed over configPath.  A
failing write leaves both files untouched; a failing rename leaves the
temporary file behind and configPath untouched; either failure is rethrown
after logging.  On success the rename consumes the temporary file and the
canonical file holds the merged document. -/
def saveConfig {V : Type} (st : CMState V) (newConfig : List (String × V))
    (fx : FsOutcome) : Except JsErr Unit × CMState V :=
  let merged := spreadMerge st.memory newConfig
  let st1 : CMState V := { st with memory := merged }
  match fx with
  | .writeFail m => (.error (.error m), st1)
  | .renameFail m => (.error (.error m), { st1 with temp := some merged })
  | .ok => (.ok (), { st1 with disk := some merged, temp := none })

/-- Embedding of ConfigManager.get: a pure lookup in the in-memory
document. -/
def ConfigManager.get {V : Type} (st : CMState V) (key : String) : Option V :=
  lookupKey st.memory key

/-- Embedding of ConfigManager.set: this.config[key] = value, then
saveConfig(this.config) is started without being awaited; fx is the outcome
of that persist. -/
def ConfigManager.set {V : Type} (st : CMState V) (key : String) (value : V)
    (fx : FsOutcome) : CMState V :=
  let st1 : CMState V := { st with memory := setKey st.memory key value }
  (saveConfig st1 st1.memory fx).2

/-! Lemmas about the association-list operations. -/

theorem lookupKey_setKey {V : Type} (c : List (String × V)) (k q : String)
    (v : V) :
    lookupKey (setKey c k v) q = if q = k then some v else lookupKey c q := by
  induction c with
  | nil => simp [setKey, lookupKey]
  | cons hd rest ih =>
    obtain ⟨k', v'⟩ := hd
    by_cases hk : k' = k
    · subst hk
      simp only [setKey, if_pos rfl, lookupKey]
      by_cases hq : q = k' <;> simp [hq]
    · simp only [setKey, if_neg hk, lookupKey, ih]
      by_cases hq : q = k' <;> by_cases hq2 : q = k <;> simp_all

theorem lookupKey_eq_none {V : Type} (c : List (String × V)) (k : String)
    (h : k ∉ c.map Prod.fst) : lookupKey c k = none := by
  induction c with
  | nil => rfl
  | cons hd rest ih =>
    obtain ⟨k', v'⟩ := hd
    simp only [List.map_cons, List.mem_cons] at h
    push_neg at h
    simp [lookupKey, h.1, ih h.2]

theorem mem_keys_setKey {V : Type} (c : List (String × V)) (k : String)
    (v : V) (q : String) :
    q ∈ (setKey c k v).map Prod.fst ↔ q = k ∨ q ∈ c.map Prod.fst := by
  induction c with
  | nil => simp [setKey]
  | cons hd rest ih =>
    obtain ⟨k', v'⟩ := hd
    by_cases hk : k' = k
    · subst hk
      have hset : setKey ((k', v') :: rest) k' v = (k', v) :: rest := by
        simp [setKey]
      rw [hset]
      simp only [List.map_cons, List.mem_cons]
      tauto
    · simp only [setKey, if_neg hk, List.map_cons, List.mem_cons, ih]
      tauto

theorem nodup_keys_setKey {V : Type} (c : List (String × V)) (k : String)
    (v : V) (h : (c.map Prod.fst).Nodup) :
    ((setKey c k v).map Prod.fst).Nodup := by
  induction c with
  | nil => simp [setKey]
  | cons hd rest ih =>
    obtain ⟨k', v'⟩ := hd
    simp only [List.map_cons, List.nodup_cons] at h
    by_cases hk : k' = k
    · subst hk
      simpa [setKey] using h
    · simp only [setKey, if_neg hk, List.map_cons, List.nodup_cons]
      refine ⟨fun hmem => ?_, ih h.2⟩
      rcases (mem_keys_setKey rest k v k').mp hmem with h1 | h2
      · exact hk h1
      · exact h.1 h2

theorem lookupKey_spreadMerge {V : Type} (p c : List (String × V))
    (q : String) (hp : (p.map Prod.fst).Nodup) :
    lookupKey (spreadMerge c p) q = optOr (lookupKey p q) (lookupKey c q) := by
  induction p generalizing c with
  | nil => simp [spreadMerge, lookupKey, optOr]
  | cons hd rest ih =>
    obtain ⟨k, v⟩ := hd
    simp only [List.map_cons, List.nodup_cons] at hp
    have hmerge : spreadMerge c ((k, v) :: rest)
        = spreadMerge (setKey c k v) rest := rfl
    rw [hmerge, ih (setKey c k v) hp.2]
    by_cases hq : q = k
    · subst hq
      rw [lookupKey_eq_none rest q hp.1]
      simp [lookupKey, lookupKey_setKey, optOr]
    · simp [lookupKey, lookupKey_setKey, hq, optOr]

/-! Claim theorems. -/

/-- Claim C1, counterexample: a primary response that is an HTTP success with
a malformed (undefined) body is a failure in the sense of the claim, yet
getPublicIP issues no call to the secondary service on it, refuting the
claim that every primary failure leads to exactly one secondary call. -/
theorem getPublicIP_malformed_no_fallback_cex :
    specAnyFailure (.ok ⟨none⟩) ∧
    getPublicIPCalls (.ok ⟨none⟩) = [.primary] ∧
    Service.secondary ∉ getPublicIPCalls (.ok ⟨none⟩) :=
  ⟨rfl, rfl, by decide⟩

/-- Claim C1, amended: when the primary request rejects (network error or
non-2xx), getPublicIP issues exactly one call to the secondary with no retry
of the primary, and a rejection of the secondary propagates unmodified; a
primary HTTP success with a malformed body does not trigger the fallback. -/
theorem getPublicIP_fallback_spec (e e2 : JsErr) :
    getPublicIPCalls (.reject e) = [.primary, .secondary] ∧
    getPublicIP (.reject e) (.reject e2) = .error e2 ∧
    getPublicIPCalls (.ok ⟨none⟩) = [.primary] :=
  ⟨rfl, rfl, rfl⟩

theorem jsTrim_empty : jsTrim "" = "" := by decide

/-- Claim C2, counterexample: a primary response that is an HTTP success with
an empty-string body makes getPublicIP return normally with the empty
string, refuting the claim that an empty body is treated as an error. -/
theorem getPublicIP_empty_body_cex :
    getPublicIP (.ok ⟨some ""⟩) (.reject (.axiosErr "secondary down"))
      = .ok "" := by
  show Except.ok (jsTrim "") = Except.ok ""
  exact congrArg Except.ok jsTrim_empty

/-- Claim C2, amended: a response whose body is undefined makes getPublicIP
throw a TypeError even though the HTTP request succeeded, while a response
whose body is the empty string is returned normally as the empty string. -/
theorem getPublicIP_undefined_body_spec (s : HttpOutcome) :
    getPublicIP (.ok ⟨none⟩) s = .error .typeError ∧
    getPublicIP (.ok ⟨some ""⟩) s = .ok "" :=
  ⟨rfl, by
    show Except.ok (jsTrim "") = Except.ok ""
    exact congrArg Except.ok jsTrim_empty⟩

/-- Claim C3, counterexample: a provider success whose first match carries
the empty-string id makes getRecordId return null (the JS null-coercion of a
falsy id), not the id of the first match, refuting the claim that any
success with at least one match returns the first id. -/
theorem getRecordId_empty_id_cex :
    getRecordId ⟨true, [⟨""⟩]⟩ = .ok none ∧
    getRecordId ⟨true, [⟨""⟩]⟩ ≠ .ok (some "") := by
  constructor
  · rfl
  · intro h
    rw [show getRecordId ⟨true, [⟨""⟩]⟩ = .ok none from rfl] at h
    simp at h

/-- Claim C3, amended: on provider-reported failure getRecordId throws an
Error with message "Failed to fetch Record ID"; on success with zero matches
it returns null without throwing; on success with at least one match it
returns the id of the first match when that id is non-empty, and null when
the first id is the falsy empty string. -/
theorem getRecordId_spec (d : RecordsData) :
    (d.success = false →
      getRecordId d = .error (.error "Failed to fetch Record ID")) ∧
    (d.success = true → d.result = [] → getRecordId d = .ok none) ∧
    (∀ r rest, d.success = true → d.result = r :: rest → r.id ≠ "" →
      getRecordId d = .ok (some r.id)) ∧
    (∀ r rest, d.success = true → d.result = r :: rest → r.id = "" →
      getRecordId d = .ok none) := by
  refine ⟨fun h => by simp [getRecordId, h], fun hs hr => ?_, ?_, ?_⟩
  · simp [getRecordId, jsOrNull, hs, hr]
  · intro r rest hs hr hid
    simp [getRecordId, jsOrNull, hs, hr, hid]
  · intro r rest hs hr hid
    simp [getRecordId, jsOrNull, hs, hr, hid]

/-- Claim C3, witness of the amended theorem at concrete inputs. -/
theorem getRecordId_spec_w :
    getRecordId ⟨true, [⟨"r1"⟩]⟩ = .ok (some "r1") ∧
    getRecordId ⟨true, []⟩ = .ok none ∧
    getRecordId ⟨false, []⟩ = .error (.error "Failed to fetch Record ID") :=
  ⟨(getRecordId_spec ⟨true, [⟨"r1"⟩]⟩).2.2.1 ⟨"r1"⟩ [] rfl rfl (by decide),
   (getRecordId_spec ⟨true, []⟩).2.1 rfl rfl,
   (getRecordId_spec ⟨false, []⟩).1 rfl⟩

/-- Claim C4: on provider-reported failure getZoneId throws an Error with
message "Failed to fetch Zone ID"; on provider success it returns the id of
the zone at index 0 of the result list (the claim presupposes that a first
zone exists; the empty result list is settled by the C10 theorem). -/
theorem getZoneId_spec (d : ZonesData) :
    (d.success = false →
      getZoneId d = .error (.error "Failed to fetch Zone ID")) ∧
    (∀ z zs, d.success = true → d.result = z :: zs →
      getZoneId d = .ok z.id) := by
  constructor
  · intro h
    simp [getZoneId, h]
  · intro z zs hs hr
    simp [getZoneId, hs, hr]

/-- Claim C4, witness at concrete inputs. -/
theorem getZoneId_spec_w :
    getZoneId ⟨true, [⟨"z1"⟩]⟩ = .ok "z1" ∧
    getZoneId ⟨false, []⟩ = .error (.error "Failed to fetch Zone ID") :=
  ⟨(getZoneId_spec ⟨true, [⟨"z1"⟩]⟩).2 ⟨"z1"⟩ [] rfl rfl,
   (getZoneId_spec ⟨false, []⟩).1 rfl⟩

/-- Claim C10: on a provider success with an empty result list, getZoneId
throws a TypeError from the unguarded result[0].id access and so returns no
identifier, while getRecordId on the same shape of input returns null
because its access is guarded by optional chaining and null-coercion. -/
theorem getZoneId_empty_vs_getRecordId (d : ZonesData)
    (hs : d.success = true) (hr : d.result = []) :
    getZoneId d = .error .typeError ∧
    (∀ i, getZoneId d ≠ .ok i) ∧
    (∀ dr : RecordsData, dr.success = true → dr.result = [] →
      getRecordId dr = .ok none) := by
  have hz : getZoneId d = .error .typeError := by simp [getZoneId, hs, hr]
  refine ⟨hz, fun i h => ?_, fun dr h1 h2 => ?_⟩
  · rw [hz] at h
    exact Except.noConfusion h
  · simp [getRecordId, jsOrNull, h1, h2]

/-- Claim C10, witness at concrete inputs. -/
theorem getZoneId_empty_vs_getRecordId_w :
    getZoneId ⟨true, []⟩ = .error .typeError ∧
    getRecordId ⟨true, []⟩ = .ok none :=
  have h := getZoneId_empty_vs_getRecordId ⟨true, []⟩ rfl rfl
  ⟨h.1, h.2.2 ⟨true, []⟩ rfl rfl⟩

/-- Claim C5: updateDNSRecord issues exactly one PUT whose body is exactly
type A, name subdomain.domainName, content the given ip, ttl 1800, proxied
false, for every provider outcome and with no old IP consulted anywhere; on
provider-reported success the raw payload is returned unchanged. -/
theorem updateDNSRecord_spec (domainName zoneId recordId subdomain publicIP :
    String) (d : UpdateData) :
    (updateDNSRecord domainName zoneId recordId subdomain publicIP d).1.map
        PutRequest.body
      = [⟨"A", subdomain ++ "." ++ domainName, publicIP, 1800, false⟩] ∧
    (d.success = true →
      (updateDNSRecord domainName zoneId recordId subdomain publicIP d).2
        = .ok d) := by
  constructor
  · rfl
  · intro h
    simp [updateDNSRecord, h]

/-- Claim C5, witness at the concrete inputs of the spec example. -/
theorem updateDNSRecord_spec_w :
    (updateDNSRecord "example.com" "z1" "r1" "sub" "1.2.3.4"
        ⟨true, "payload"⟩).1.map PutRequest.body
      = [⟨"A", "sub.example.com", "1.2.3.4", 1800, false⟩] ∧
    (updateDNSRecord "example.com" "z1" "r1" "sub" "1.2.3.4"
        ⟨true, "payload"⟩).2 = .ok ⟨true, "payload"⟩ := by
  have h := updateDNSRecord_spec "example.com" "z1" "r1" "sub" "1.2.3.4"
    ⟨true, "payload"⟩
  refine ⟨?_, h.2 rfl⟩
  rw [h.1]
  decide

/-- Claim C6: for a partial document p with distinct keys, a successful
saveConfig(p) persists exactly the spread merge of the in-memory document
with p, and in that merged document the value of p wins on every key of p
while every other key keeps its value from the prior document. -/
theorem saveConfig_merge_spec {V : Type} (st : CMState V)
    (p : List (String × V)) (hp : (p.map Prod.fst).Nodup) :
    (saveConfig st p .ok).1 = .ok () ∧
    (saveConfig st p .ok).2.disk = some (spreadMerge st.memory p) ∧
    ∀ q, lookupKey (spreadMerge st.memory p) q
      = optOr (lookupKey p q) (lookupKey st.memory q) :=
  ⟨rfl, rfl, fun q => lookupKey_spreadMerge p st.memory q hp⟩

/-- Claim C6, witness: the spec example, document a maps to 1 merged with b
maps to 2 persists both keys. -/
theorem saveConfig_merge_spec_w :
    (saveConfig (V := Nat) ⟨[("a", 1)], some [("a", 1)], none⟩
        [("b", 2)] .ok).2.disk = some [("a", 1), ("b", 2)] := by
  have h := (saveConfig_merge_spec (V := Nat)
    ⟨[("a", 1)], some [("a", 1)], none⟩ [("b", 2)] (by simp)).2.1
  rw [h]
  decide

/-- Claim C7: constructing the ConfigManager over a missing backing file
throws an Error whose message embeds the configured path, for every path, so
there is no create-if-missing path; over an existing file the document is
loaded into memory immediately. -/
theorem construct_spec {V : Type} (configPath : String) :
    (ConfigManager.construct (V := V) configPath none
      = .error (.error ("Config file not found (" ++ configPath ++ ")"))) ∧
    (∃ pre post,
      "Config file not found (" ++ configPath ++ ")"
        = pre ++ configPath ++ post) ∧
    ∀ doc : List (String × V),
      ConfigManager.construct configPath (some doc)
        = .ok ⟨doc, some doc, none⟩ :=
  ⟨rfl, ⟨"Config file not found (", ")", rfl⟩, fun _ => rfl⟩

/-- Claim C8: when the write or the rename step of saveConfig fails, the
failure is rethrown to the caller, the in-memory document has already been
mutated to the merged result, and the canonical file still holds the prior
complete document, so memory and disk diverge. -/
theorem saveConfig_failure_spec {V : Type} (st : CMState V)
    (p : List (String × V)) (m : String) (fx : FsOutcome)
    (hfx : fx = .writeFail m ∨ fx = .renameFail m) :
    (saveConfig st p fx).1 = .error (.error m) ∧
    (saveConfig st p fx).2.memory = spreadMerge st.memory p ∧
    (saveConfig st p fx).2.disk = st.disk := by
  rcases hfx with h | h <;> subst h <;> exact ⟨rfl, rfl, rfl⟩

/-- Claim C8, witness at a concrete failing write. -/
theorem saveConfig_failure_spec_w :
    (saveConfig (V := Nat) ⟨[("a", 1)], some [("a", 1)], none⟩ [("b", 2)]
        (.writeFail "EIO")).1 = .error (.error "EIO") ∧
    (saveConfig (V := Nat) ⟨[("a", 1)], some [("a", 1)], none⟩ [("b", 2)]
        (.writeFail "EIO")).2.disk = some [("a", 1)] :=
  have h := saveConfig_failure_spec (V := Nat)
    ⟨[("a", 1)], some [("a", 1)], none⟩ [("b", 2)] "EIO"
    (.writeFail "EIO") (Or.inl rfl)
  ⟨h.1, h.2.2⟩

/-- Claim C9: on a document with distinct keys, set(k, v) followed by get(k)
on the same instance returns v whatever the outcome of the persist that set
started without awaiting; and get is a pure lookup whose result depends only
on the in-memory document, never on the files. -/
theorem set_get_spec {V : Type} (st : CMState V) (k : String) (v : V)
    (fx : FsOutcome) (hnd : (st.memory.map Prod.fst).Nodup) :
    ConfigManager.get (ConfigManager.set st k v fx) k = some v ∧
    ∀ st2 : CMState V, st2.memory = st.memory →
      ∀ q, ConfigManager.get st2 q = ConfigManager.get st q := by
  constructor
  · have hmem : (ConfigManager.set st k v fx).memory
        = spreadMerge (setKey st.memory k v) (setKey st.memory k v) := by
      cases fx <;> rfl
    unfold ConfigManager.get
    rw [hmem, lookupKey_spreadMerge _ _ _ (nodup_keys_setKey _ _ _ hnd),
      lookupKey_setKey]
    simp [optOr]
  · intro st2 h q
    unfold ConfigManager.get
    rw [h]

/-- Claim C9, witness at a concrete instance and a failing persist. -/
theorem set_get_spec_w :
    ConfigManager.get
      (ConfigManager.set (V := Nat) ⟨[("a", 1)], some [("a", 1)], none⟩
        "zoneId" 7 (.writeFail "EIO")) "zoneId" = some 7 :=
  (set_get_spec (V := Nat) ⟨[("a", 1)], some [("a", 1)], none⟩ "zoneId" 7
    (.writeFail "EIO") (by simp)).1

end NimbusDDNS
